import Mathlib

/-!
# TMD2772 ambient-light / proximity sensor driver (`src/C/TMD2772.c`)

A shallow embedding of the single C function `main` of the repository.

* The operating system is an explicit environment `Env`: it fixes what `open`,
  every `write` and the `read` return, which bytes the `read` stores, and
  whether plain `char` is a signed type (implementation-defined in C).
* The program threads a `World` (the events issued so far and the number of
  `write` calls made) through the system calls, in source order.
* C `int` values are `Int` (every intermediate value is below 2^31 in absolute
  value, so no wrap-around occurs); bytes are `Nat` below 256.
* C `double` values are rationals. In `main` the arithmetic is taken exactly
  and a decimal literal denotes its decimal value. The conversion is given a
  second time (`luminanceIn`) under an explicit evaluation mode `FloatEval`,
  which says how literals, operation results and stored variables are rounded:
  exactly, in IEEE binary64 throughout, or with x87 extended-precision
  intermediates. Overflow and subnormal numbers do not arise for 16-bit counts
  and are not modelled.
-/

namespace TMD2772

/-! ## Data model -/

/-- The four `printf` calls of the program, with their numeric argument. -/
inductive Output where
  /-- Line 20: the bus could not be opened. -/
  | failedToOpen : Output
  /-- Line 61: the input/output error message. -/
  | inputOutputError : Output
  /-- Line 84: the luminance line, value shown with two decimals. -/
  | luminance (lux : ℚ) : Output
  /-- Line 85: the proximity line, value shown with two decimals. -/
  | proximity (count : ℚ) : Output
  deriving DecidableEq

/-- What the program does to the outside world, one constructor per call. -/
inductive Event where
  /-- Line 18: open the bus device read-write. -/
  | openBus : Event
  /-- Line 24: select the slave address. -/
  | ioctl (address : Nat) : Event
  /-- A `write` of all the bytes of the buffer. -/
  | write (bytes : List Nat) : Event
  /-- Line 52: the settling delay, in seconds. -/
  | sleep (seconds : Nat) : Event
  /-- A `read` asking for `count` bytes. -/
  | read (count : Nat) : Event
  /-- A `printf`. -/
  | printf (out : Output) : Event
  deriving DecidableEq

/-- Everything outside the program that a run depends on. -/
structure Env where
  /-- Whether plain `char` is signed on the platform the program is built for. -/
  charSigned : Bool
  /-- Return value of `open`: a descriptor, or a negative number on failure. -/
  openResult : Int
  /-- Return value of the k-th `write` call (k counted from 0). -/
  writeResult : Nat → Int
  /-- Return value of the `read` call. -/
  readResult : Int
  /-- The bytes the device sends in answer to the `read`. -/
  readBytes : List Nat

/-- The program's view of the outside world while it runs. -/
structure World where
  /-- Events issued so far, oldest first. -/
  trace : List Event
  /-- Number of `write` calls made so far. -/
  writes : Nat

/-- The outcome of a run: the events issued, and the exit status when the
program ends through `exit` (`none` when `main`, declared `void`, runs off
its end). -/
structure Run where
  trace : List Event
  status : Option Nat

/-! ## System calls -/

/-- The call `open(bus, O_RDWR)`. -/
def sysOpen (env : Env) (w : World) : World × Int :=
  ({ w with trace := w.trace ++ [Event.openBus] }, env.openResult)

/-- The call `ioctl(file, I2C_SLAVE, address)`; its result is not used. -/
def sysIoctl (w : World) (address : Nat) : World :=
  { w with trace := w.trace ++ [Event.ioctl address] }

/-- The call `write(file, buf, length of buf)`, returning the number of bytes
the environment says were transmitted. -/
def sysWrite (env : Env) (w : World) (buf : List Nat) : World × Int :=
  ({ trace := w.trace ++ [Event.write buf], writes := w.writes + 1 },
    env.writeResult w.writes)

/-- The call `sleep(seconds)`. -/
def sysSleep (w : World) (seconds : Nat) : World :=
  { w with trace := w.trace ++ [Event.sleep seconds] }

/-- The call `read(file, buf, count)`: the first `readResult` cells of the
buffer receive the device's bytes, the other cells keep their content. -/
def sysRead (env : Env) (w : World) (buf : List Nat) (count : Nat) :
    World × Int × List Nat :=
  ({ w with trace := w.trace ++ [Event.read count] },
    env.readResult,
    (List.range count).map fun (i : Nat) =>
      if (i : Int) < env.readResult then env.readBytes.getD i 0 % 256 else buf.getD i 0)

/-- The call `printf`. -/
def sysPrintf (w : World) (out : Output) : World :=
  { w with trace := w.trace ++ [Event.printf out] }

/-! ## The program -/

/-- The expression `reg | 0x80` that forms the first byte of every register
access (lines 29, 34, 39, 44, 49 and 56). -/
def commandByte (reg : Nat) : Nat :=
  reg ||| 0x80

/-- The value of a buffer cell read through the type `char`: the byte itself
when `char` is unsigned, its two's-complement value when `char` is signed. -/
def charValue (charSigned : Bool) (byte : Nat) : Int :=
  if charSigned && decide (128 ≤ byte) then (byte : Int) - 256 else (byte : Int)

/-- Line 66: `int c0Data = (data[1] * 256 + data[0]);`. -/
def c0Data (charSigned : Bool) (data : List Nat) : Int :=
  charValue charSigned (data.getD 1 0) * 256 + charValue charSigned (data.getD 0 0)

/-- Line 67: `int c1Data = (data[3] * 256 + data[2]);`. -/
def c1Data (charSigned : Bool) (data : List Nat) : Int :=
  charValue charSigned (data.getD 3 0) * 256 + charValue charSigned (data.getD 2 0)

/-- Line 68: `double proximity = (data[5] * 256 + data[4]);`. -/
def proximity (charSigned : Bool) (data : List Nat) : ℚ :=
  ((charValue charSigned (data.getD 5 0) * 256 + charValue charSigned (data.getD 4 0) : Int) : ℚ)

/-- Line 69: `double CPL = (2.73 * 1.0) / 20.0;`. -/
def CPL : ℚ :=
  (2.73 * 1.0) / 20.0

/-- Line 70: `double luminance1 = (1 * c0Data - 1.75 * c1Data) / CPL;`. -/
def luminance1 (c0Data c1Data : Int) : ℚ :=
  (((1 * c0Data : Int) : ℚ) - 1.75 * (c1Data : ℚ)) / CPL

/-- Line 71: `double luminance2 = (0.63 * c0Data - 1.00 * c1Data) / CPL;`. -/
def luminance2 (c0Data c1Data : Int) : ℚ :=
  (0.63 * (c0Data : ℚ) - 1.00 * (c1Data : ℚ)) / CPL

/-- Lines 72 to 81: the selection between the two candidate values. -/
def luminance (c0Data c1Data : Int) : ℚ :=
  if luminance1 c0Data c1Data > 0 ∧ luminance1 c0Data c1Data > luminance2 c0Data c1Data then
    luminance1 c0Data c1Data
  else if luminance2 c0Data c1Data > 0 ∧ luminance2 c0Data c1Data > luminance1 c0Data c1Data then
    luminance2 c0Data c1Data
  else
    0.0

/-- The function `main`, statement by statement. -/
def main (env : Env) : Run :=
  let w : World := { trace := [], writes := 0 }
  let (w, file) := sysOpen env w
  if file < 0 then
    let w := sysPrintf w Output.failedToOpen
    { trace := w.trace, status := some 1 }
  else
    let w := sysIoctl w 0x39
    let (w, _) := sysWrite env w [commandByte 0x00, 0x0F]
    let (w, _) := sysWrite env w [commandByte 0x01, 0xFF]
    let (w, _) := sysWrite env w [commandByte 0x02, 0xFF]
    let (w, _) := sysWrite env w [commandByte 0x03, 0xFF]
    let (w, _) := sysWrite env w [commandByte 0x0F, 0x20]
    let w := sysSleep w 1
    let (w, _) := sysWrite env w [commandByte 0x14]
    let (w, n, data) := sysRead env w [0, 0, 0, 0, 0, 0] 6
    if n ≠ 6 then
      let w := sysPrintf w Output.inputOutputError
      { trace := w.trace, status := none }
    else
      let w := sysPrintf w
        (Output.luminance (luminance (c0Data env.charSigned data) (c1Data env.charSigned data)))
      let w := sysPrintf w (Output.proximity (proximity env.charSigned data))
      { trace := w.trace, status := none }

/-! ## Observations on a trace -/

/-- The buffers of the `write` calls of a trace, in order. -/
def busWrites (t : List Event) : List (List Nat) :=
  t.filterMap fun e =>
    match e with
    | Event.write bytes => some bytes
    | _ => none

/-- The bus transfers of a trace (`write` and `read` calls), in order. -/
def busTransfers (t : List Event) : List Event :=
  t.filter fun e =>
    match e with
    | Event.write _ => true
    | Event.read _ => true
    | _ => false

/-- What a trace prints, in order. -/
def outputs (t : List Event) : List Output :=
  t.filterMap fun e =>
    match e with
    | Event.printf out => some out
    | _ => none

/-- Whether a printed item is a result line (luminance or proximity). -/
def isResult (out : Output) : Bool :=
  match out with
  | Output.luminance _ => true
  | Output.proximity _ => true
  | _ => false

/-- A value shown with two decimals, in hundredths (nearest, halves upward). -/
def twoDecimals (x : ℚ) : Int :=
  Int.floor (x * 100 + 1 / 2)

/-- The content of the 6-byte buffer after the `read` of line 59. -/
def received (env : Env) : List Nat :=
  (sysRead env { trace := [], writes := 0 } [0, 0, 0, 0, 0, 0] 6).2.2

/-- Events every run with an open bus issues up to and including the `read`. -/
def samplingTrace : List Event :=
  [Event.openBus, Event.ioctl 0x39,
    Event.write [0x80, 0x0F], Event.write [0x81, 0xFF], Event.write [0x82, 0xFF],
    Event.write [0x83, 0xFF], Event.write [0x8F, 0x20],
    Event.sleep 1, Event.write [0x94], Event.read 6]

/-! ## The conversion as the specification words it -/

/-- Formula A of the specification, with CPL = 2.73 / 20. -/
def formulaA (c0 c1 : Int) : ℚ :=
  (1.00 * (c0 : ℚ) - 1.75 * (c1 : ℚ)) / (2.73 / 20)

/-- Formula B of the specification, with CPL = 2.73 / 20. -/
def formulaB (c0 c1 : Int) : ℚ :=
  (0.63 * (c0 : ℚ) - 1.00 * (c1 : ℚ)) / (2.73 / 20)

/-- The selection policy of the specification: formula A if it is positive
and above formula B; otherwise formula B if it is positive and above formula
A; otherwise 0. -/
def specLuminance (c0 c1 : Int) : ℚ :=
  if formulaA c0 c1 > 0 ∧ formulaA c0 c1 > formulaB c0 c1 then formulaA c0 c1
  else if formulaB c0 c1 > 0 ∧ formulaB c0 c1 > formulaA c0 c1 then formulaB c0 c1
  else 0

/-! ## Evaluation of `double` arithmetic -/

/-- The integer nearest to a rational, a tie going to the even neighbour. -/
def roundHalfEven (y : ℚ) : Int :=
  if y - (Int.floor y : ℚ) < 1 / 2 then Int.floor y
  else if y - (Int.floor y : ℚ) > 1 / 2 then Int.floor y + 1
  else if Int.floor y % 2 = 0 then Int.floor y
  else Int.floor y + 1

/-- Round to nearest, ties to even, to a binary significand of `p` bits: with
2^e <= |x| < 2^(e+1) the result is a multiple of 2^(e - p + 1). -/
def roundToPrecision (p : Nat) (x : ℚ) : ℚ :=
  if x = 0 then 0
  else (roundHalfEven (x / 2 ^ (Int.log 2 |x| - (p : Int) + 1)) : ℚ) *
    2 ^ (Int.log 2 |x| - (p : Int) + 1)

/-- How a platform evaluates expressions of type `double`. -/
structure FloatEval where
  /-- The value of a decimal literal. -/
  literal : ℚ → ℚ
  /-- The rounding of the result of one arithmetic operation. -/
  operation : ℚ → ℚ
  /-- The rounding of a value assigned to a `double` variable. -/
  store : ℚ → ℚ

/-- Exact arithmetic: nothing is rounded. -/
def exactEval : FloatEval :=
  { literal := fun x => x, operation := fun x => x, store := fun x => x }

/-- IEEE binary64 throughout (53-bit significand), as with SSE2 or on ARM. -/
def binary64Eval : FloatEval :=
  { literal := roundToPrecision 53, operation := roundToPrecision 53,
    store := roundToPrecision 53 }

/-- The x87 unit: literals and variables are binary64, the result of each
operation is kept with a 64-bit significand. -/
def x87Eval : FloatEval :=
  { literal := roundToPrecision 53, operation := roundToPrecision 64,
    store := roundToPrecision 53 }

/-- Line 69 under an evaluation mode. -/
def CPLIn (ev : FloatEval) : ℚ :=
  ev.store (ev.operation (ev.operation (ev.literal 2.73 * ev.literal 1.0) / ev.literal 20.0))

/-- Line 70 under an evaluation mode (an `int` converts to `double` exactly). -/
def luminance1In (ev : FloatEval) (c0Data c1Data : Int) : ℚ :=
  ev.store (ev.operation
    (ev.operation (((1 * c0Data : Int) : ℚ) - ev.operation (ev.literal 1.75 * (c1Data : ℚ))) /
      CPLIn ev))

/-- Line 71 under an evaluation mode. -/
def luminance2In (ev : FloatEval) (c0Data c1Data : Int) : ℚ :=
  ev.store (ev.operation
    (ev.operation (ev.operation (ev.literal 0.63 * (c0Data : ℚ)) -
        ev.operation (ev.literal 1.00 * (c1Data : ℚ))) /
      CPLIn ev))

/-- Lines 72 to 81 under an evaluation mode. -/
def luminanceIn (ev : FloatEval) (c0Data c1Data : Int) : ℚ :=
  if luminance1In ev c0Data c1Data > 0 ∧
      luminance1In ev c0Data c1Data > luminance2In ev c0Data c1Data then
    luminance1In ev c0Data c1Data
  else if luminance2In ev c0Data c1Data > 0 ∧
      luminance2In ev c0Data c1Data > luminance1In ev c0Data c1Data then
    luminance2In ev c0Data c1Data
  else
    ev.store (ev.literal 0.0)

/-! ## Sample environments -/

/-- A healthy run on a platform with unsigned `char`: c0 = 100, c1 = 0,
proximity = 263. -/
def envHealthy : Env :=
  { charSigned := false, openResult := 3, writeResult := fun k => if k < 5 then 2 else 1,
    readResult := 6, readBytes := [100, 0, 0, 0, 7, 1] }

/-- The bus cannot be opened. -/
def envNoBus : Env :=
  { charSigned := false, openResult := -1, writeResult := fun _ => -1,
    readResult := -1, readBytes := [] }

/-- The first configuration write transmits one byte instead of two. -/
def envShortWrite : Env :=
  { charSigned := false, openResult := 3, writeResult := fun k => if k = 0 then 1 else 2,
    readResult := 6, readBytes := [100, 0, 0, 0, 7, 1] }

/-- The read returns three bytes instead of six. -/
def envShortRead : Env :=
  { charSigned := false, openResult := 3, writeResult := fun k => if k < 5 then 2 else 1,
    readResult := 3, readBytes := [100, 0, 0] }

/-- A healthy run on a platform with signed `char`; the device reports
c0 = 200 (bytes C8 00), c1 = 0 and proximity = 400 (bytes 90 01). -/
def envSignedChar : Env :=
  { charSigned := true, openResult := 3, writeResult := fun k => if k < 5 then 2 else 1,
    readResult := 6, readBytes := [0xC8, 0x00, 0x00, 0x00, 0x90, 0x01] }

/-! ## The shape of a run -/

theorem main_of_open_failed (env : Env) (h : env.openResult < 0) :
    main env =
      { trace := [Event.openBus, Event.printf Output.failedToOpen], status := some 1 } := by
  simp [main, sysOpen, sysPrintf, h]

theorem main_of_short_read (env : Env) (h : 0 ≤ env.openResult) (hr : env.readResult ≠ 6) :
    main env =
      { trace := samplingTrace ++ [Event.printf Output.inputOutputError], status := none } := by
  have h0 : ¬ env.openResult < 0 := not_lt.mpr h
  simp [main, sysOpen, sysIoctl, sysWrite, sysSleep, sysRead, sysPrintf, samplingTrace,
    commandByte, h0, hr]

theorem main_of_full_read (env : Env) (h : 0 ≤ env.openResult) (hr : env.readResult = 6) :
    main env =
      { trace := samplingTrace ++
          [Event.printf (Output.luminance
              (luminance (c0Data env.charSigned (received env))
                (c1Data env.charSigned (received env)))),
            Event.printf (Output.proximity (proximity env.charSigned (received env)))],
        status := none } := by
  have h0 : ¬ env.openResult < 0 := not_lt.mpr h
  simp [main, sysOpen, sysIoctl, sysWrite, sysSleep, sysRead, sysPrintf, samplingTrace,
    commandByte, received, h0, hr]

theorem writes_of_open_run (env : Env) (h : 0 ≤ env.openResult) :
    busWrites (main env).trace =
      [[0x80, 0x0F], [0x81, 0xFF], [0x82, 0xFF], [0x83, 0xFF], [0x8F, 0x20], [0x94]] := by
  by_cases hr : env.readResult = 6
  · rw [main_of_full_read env h hr]
    simp [samplingTrace, busWrites]
  · rw [main_of_short_read env h hr]
    simp [samplingTrace, busWrites]

/-! ## Bus protocol -/

/-- C4: in every run in which the bus is opened, the writes issued are, in
order, the five two-byte configuration writes 80 0F, 81 FF, 82 FF, 83 FF,
8F 20 and the one-byte data-block select 94; the bus transfers of the run are
exactly these six writes followed by the 6-byte read, so the read follows the
select with no write in between and no other write is issued. -/
theorem bus_write_sequence (env : Env) (h : 0 ≤ env.openResult) :
    busWrites (main env).trace =
        [[0x80, 0x0F], [0x81, 0xFF], [0x82, 0xFF], [0x83, 0xFF], [0x8F, 0x20], [0x94]] ∧
      busTransfers (main env).trace =
        [Event.write [0x80, 0x0F], Event.write [0x81, 0xFF], Event.write [0x82, 0xFF],
          Event.write [0x83, 0xFF], Event.write [0x8F, 0x20], Event.write [0x94],
          Event.read 6] := by
  by_cases hr : env.readResult = 6
  · rw [main_of_full_read env h hr]
    simp [samplingTrace, busWrites, busTransfers]
  · rw [main_of_short_read env h hr]
    simp [samplingTrace, busWrites, busTransfers]

theorem bus_write_sequence_witness :
    0 ≤ envHealthy.openResult ∧
      busWrites (main envHealthy).trace =
        [[0x80, 0x0F], [0x81, 0xFF], [0x82, 0xFF], [0x83, 0xFF], [0x8F, 0x20], [0x94]] :=
  ⟨by decide, (bus_write_sequence envHealthy (by decide)).1⟩

/-- C5 as stated fails: in the run where the first configuration write
transmits one byte of the two requested, the program still issues the
data-block select, performs the 6-byte read and reports both results. -/
theorem short_config_write_still_samples :
    envShortWrite.writeResult 0 < 2 ∧
      [0x94] ∈ busWrites (main envShortWrite).trace ∧
      Event.read 6 ∈ (main envShortWrite).trace ∧
      outputs (main envShortWrite).trace =
        [Output.luminance (200000 / 273), Output.proximity 263] ∧
      (main envShortWrite).status = none := by
  refine ⟨by decide, ?_⟩
  rw [main_of_full_read envShortWrite (by decide) rfl]
  simp [samplingTrace, busWrites, outputs, received, sysRead, envShortWrite, c0Data, c1Data,
    proximity, charValue, List.range, List.range.loop, luminance, luminance1, luminance2, CPL]
  norm_num

/-- C5 amended: the program never looks at what a write returns. When the bus
is opened, whatever the configuration writes return (fewer than two bytes
included), the run is the same as with any other write results: the
data-block select and the 6-byte read are still issued, and what is reported
depends on the read alone. -/
theorem config_write_result_ignored (env : Env) (r : Nat → Int) (h : 0 ≤ env.openResult) :
    main env = main { env with writeResult := r } ∧
      [0x94] ∈ busWrites (main env).trace ∧
      Event.read 6 ∈ (main env).trace ∧
      (env.readResult = 6 → (outputs (main env).trace).map isResult = [true, true]) ∧
      (env.readResult ≠ 6 → outputs (main env).trace = [Output.inputOutputError]) := by
  refine ⟨rfl, ?_⟩
  by_cases hr : env.readResult = 6
  · rw [main_of_full_read env h hr]
    simp [samplingTrace, busWrites, outputs, isResult, hr]
  · rw [main_of_short_read env h hr]
    simp [samplingTrace, busWrites, outputs, isResult, hr]

theorem config_write_result_ignored_witness :
    (0 ≤ envShortWrite.openResult ∧ envShortWrite.writeResult 0 < 2) ∧
      main envShortWrite = main { envShortWrite with writeResult := fun _ => 2 } ∧
      [0x94] ∈ busWrites (main envShortWrite).trace :=
  ⟨⟨by decide, by decide⟩,
    (config_write_result_ignored envShortWrite (fun _ => 2) (by decide)).1,
    (config_write_result_ignored envShortWrite (fun _ => 2) (by decide)).2.1⟩

/-- C6: when the bus is opened and the read returns fewer than 6 bytes, the
run prints the input/output error message exactly once and no luminance or
proximity line (nothing decoded is reported); when the read returns exactly 6
bytes, the run prints the luminance line and the proximity line computed from
the received bytes, and no error message. -/
theorem read_result_decides_report (env : Env) (h : 0 ≤ env.openResult) :
    (env.readResult < 6 →
        outputs (main env).trace = [Output.inputOutputError] ∧
        (outputs (main env).trace).count Output.inputOutputError = 1 ∧
        (∀ out ∈ outputs (main env).trace, isResult out = false)) ∧
      (env.readResult = 6 →
        outputs (main env).trace =
          [Output.luminance
              (luminance (c0Data env.charSigned (received env))
                (c1Data env.charSigned (received env))),
            Output.proximity (proximity env.charSigned (received env))] ∧
        Output.inputOutputError ∉ outputs (main env).trace) := by
  constructor
  · intro hlt
    have hr : env.readResult ≠ 6 := ne_of_lt hlt
    rw [main_of_short_read env h hr]
    simp [samplingTrace, outputs, isResult]
  · intro hr
    rw [main_of_full_read env h hr]
    simp [samplingTrace, outputs]

theorem read_result_decides_report_witness :
    (envShortRead.readResult < 6 ∧
        outputs (main envShortRead).trace = [Output.inputOutputError]) ∧
      (envHealthy.readResult = 6 ∧
        Output.inputOutputError ∉ outputs (main envHealthy).trace) :=
  ⟨⟨by decide, ((read_result_decides_report envShortRead (by decide)).1 (by decide)).1⟩,
    ⟨rfl, ((read_result_decides_report envHealthy (by decide)).2 rfl).2⟩⟩

/-- C7: the first byte of every write the program issues (the five
configuration writes and the data-block select) has bit 80 set; and for every
8-bit register address, the encoded byte has bit 80 set, keeps the low seven
bits of the address and is still a byte. -/
theorem command_flag_always_set :
    (∀ (env : Env) (bytes : List Nat), bytes ∈ busWrites (main env).trace →
        ∃ first rest, bytes = first :: rest ∧ first &&& 0x80 = 0x80) ∧
      (∀ reg : Nat, reg < 256 →
        commandByte reg &&& 0x80 = 0x80 ∧ commandByte reg &&& 0x7F = reg &&& 0x7F ∧
          commandByte reg < 256) := by
  constructor
  · intro env bytes hmem
    by_cases h : 0 ≤ env.openResult
    · rw [(writes_of_open_run env h)] at hmem
      simp at hmem
      rcases hmem with rfl | rfl | rfl | rfl | rfl | rfl <;> exact ⟨_, _, rfl, by decide⟩
    · rw [main_of_open_failed env (not_le.mp h)] at hmem
      simp [busWrites] at hmem
  · intro reg hreg
    unfold commandByte
    interval_cases reg <;> decide

theorem command_flag_always_set_witness :
    (∃ first rest, [0x94] = first :: rest ∧ first &&& 0x80 = 0x80) ∧
      (0x14 < 256 ∧ commandByte 0x14 &&& 0x80 = 0x80) :=
  ⟨command_flag_always_set.1 envHealthy [0x94] (by decide),
    ⟨by decide, (command_flag_always_set.2 0x14 (by decide)).1⟩⟩

/-- C8: when the bus cannot be opened, the run reports the failure and ends
at once through `exit(1)`: no write, no read, and no luminance or proximity
line. -/
theorem bus_unavailable_is_fatal (env : Env) (h : env.openResult < 0) :
    (main env).status = some 1 ∧
      (main env).trace = [Event.openBus, Event.printf Output.failedToOpen] ∧
      busTransfers (main env).trace = [] ∧
      outputs (main env).trace = [Output.failedToOpen] ∧
      (∀ out ∈ outputs (main env).trace, isResult out = false) := by
  rw [main_of_open_failed env h]
  simp [busTransfers, outputs, isResult]

theorem bus_unavailable_is_fatal_witness :
    envNoBus.openResult < 0 ∧ (main envNoBus).status = some 1 :=
  ⟨by decide, (bus_unavailable_is_fatal envNoBus (by decide)).1⟩

/-! ## Decoding -/

theorem charValue_of_no_sign (charSigned : Bool) (b : Nat)
    (h : charSigned = false ∨ b < 128) : charValue charSigned b = (b : Int) := by
  unfold charValue
  rcases h with h | h
  · simp [h]
  · have hb : ¬ 128 ≤ b := not_le.mpr h
    simp [hb]

/-- Where `char` is unsigned, or no received byte has its top bit set, the
decode is the little-endian one: each field is high byte * 256 + low byte, a
value between 0 and 65535, and the proximity is that value unscaled. -/
theorem decode_of_no_sign (charSigned : Bool) (b0 b1 b2 b3 b4 b5 : Nat)
    (hlt : b0 < 256 ∧ b1 < 256 ∧ b2 < 256 ∧ b3 < 256 ∧ b4 < 256 ∧ b5 < 256)
    (h : charSigned = false ∨
      (b0 < 128 ∧ b1 < 128 ∧ b2 < 128 ∧ b3 < 128 ∧ b4 < 128 ∧ b5 < 128)) :
    (c0Data charSigned [b0, b1, b2, b3, b4, b5] = (b1 : Int) * 256 + b0 ∧
        0 ≤ c0Data charSigned [b0, b1, b2, b3, b4, b5] ∧
        c0Data charSigned [b0, b1, b2, b3, b4, b5] ≤ 65535) ∧
      (c1Data charSigned [b0, b1, b2, b3, b4, b5] = (b3 : Int) * 256 + b2 ∧
        0 ≤ c1Data charSigned [b0, b1, b2, b3, b4, b5] ∧
        c1Data charSigned [b0, b1, b2, b3, b4, b5] ≤ 65535) ∧
      (proximity charSigned [b0, b1, b2, b3, b4, b5] = (((b5 : Int) * 256 + b4 : Int) : ℚ) ∧
        0 ≤ (b5 : Int) * 256 + b4 ∧ (b5 : Int) * 256 + b4 ≤ 65535) := by
  have e0 : charValue charSigned b0 = (b0 : Int) :=
    charValue_of_no_sign _ _ (h.imp id fun x => x.1)
  have e1 : charValue charSigned b1 = (b1 : Int) :=
    charValue_of_no_sign _ _ (h.imp id fun x => x.2.1)
  have e2 : charValue charSigned b2 = (b2 : Int) :=
    charValue_of_no_sign _ _ (h.imp id fun x => x.2.2.1)
  have e3 : charValue charSigned b3 = (b3 : Int) :=
    charValue_of_no_sign _ _ (h.imp id fun x => x.2.2.2.1)
  have e4 : charValue charSigned b4 = (b4 : Int) :=
    charValue_of_no_sign _ _ (h.imp id fun x => x.2.2.2.2.1)
  have e5 : charValue charSigned b5 = (b5 : Int) :=
    charValue_of_no_sign _ _ (h.imp id fun x => x.2.2.2.2.2)
  simp only [c0Data, c1Data, proximity, List.getD_cons_zero, List.getD_cons_succ, e0, e1, e2,
    e3, e4, e5]
  refine ⟨⟨trivial, ?_, ?_⟩, ⟨trivial, ?_, ?_⟩, ⟨trivial, ?_, ?_⟩⟩ <;> omega

/-- C2 fails where plain `char` is signed: the device answers C8 00 00 00 90 01
(c0 = 200, c1 = 0, proximity = 400 as little-endian 16-bit fields), and the
program decodes c0 = -56 and proximity = 144, and reports luminance 0 and
proximity 144. -/
theorem decode_sign_extends_signed_char :
    envSignedChar.charSigned = true ∧
      received envSignedChar = [0xC8, 0x00, 0x00, 0x00, 0x90, 0x01] ∧
      c0Data envSignedChar.charSigned (received envSignedChar) = -56 ∧
      c0Data envSignedChar.charSigned (received envSignedChar) ≠ 0x00 * 256 + 0xC8 ∧
      proximity envSignedChar.charSigned (received envSignedChar) = 144 ∧
      proximity envSignedChar.charSigned (received envSignedChar) ≠ 0x01 * 256 + 0x90 ∧
      outputs (main envSignedChar).trace = [Output.luminance 0, Output.proximity 144] := by
  have hrec : received envSignedChar = [0xC8, 0x00, 0x00, 0x00, 0x90, 0x01] := by decide
  have hc0 : c0Data envSignedChar.charSigned (received envSignedChar) = -56 := by decide
  have hc1 : c1Data envSignedChar.charSigned (received envSignedChar) = 0 := by decide
  have hp : proximity envSignedChar.charSigned (received envSignedChar) = 144 := by
    rw [hrec]
    simp [proximity, envSignedChar, charValue]
  have hl : luminance (-56) 0 = 0 := by
    norm_num [luminance, luminance1, luminance2, CPL]
  refine ⟨rfl, hrec, hc0, ?_, hp, ?_, ?_⟩
  · rw [hc0]
    decide
  · rw [hp]
    norm_num
  · rw [main_of_full_read envSignedChar (by decide) rfl, hc0, hc1, hp, hl]
    simp [samplingTrace, outputs]

/-! ## Rounding -/

theorem roundHalfEven_eq (y : ℚ) (n : Int) (h : |y - (n : ℚ)| < 1 / 2) :
    roundHalfEven y = n := by
  rw [abs_lt] at h
  unfold roundHalfEven
  by_cases hge : (n : ℚ) ≤ y
  · have hf : Int.floor y = n := by
      rw [Int.floor_eq_iff]
      constructor
      · exact hge
      · linarith [h.2]
    rw [hf, if_pos (by linarith [h.2])]
  · have hf : Int.floor y = n - 1 := by
      rw [Int.floor_eq_iff]
      push_cast
      constructor
      · linarith [h.1]
      · linarith [not_le.mp hge]
    rw [hf]
    push_cast
    rw [if_neg (by linarith [h.1]), if_pos (by linarith [h.1])]
    ring

theorem log_two_eq (x : ℚ) (e : Int) (hlo : (2 : ℚ) ^ e ≤ x) (hhi : x < (2 : ℚ) ^ (e + 1)) :
    Int.log 2 x = e := by
  have hx : 0 < x := lt_of_lt_of_le (zpow_pos (by norm_num) e) hlo
  have h1 : e ≤ Int.log 2 x := by
    rw [← Int.zpow_le_iff_le_log (by norm_num) hx]
    exact_mod_cast hlo
  have h2 : Int.log 2 x < e + 1 := by
    rw [← Int.lt_zpow_iff_log_lt (by norm_num) hx]
    exact_mod_cast hhi
  omega

/-- Evaluation of a rounding: for x in the binade of exponent e, any integer
within one half of x / 2^(e - p + 1) is the rounded significand. -/
theorem roundToPrecision_eq (p : Nat) (x : ℚ) (e n : Int)
    (hlo : (2 : ℚ) ^ e ≤ x) (hhi : x < (2 : ℚ) ^ (e + 1))
    (hn : |x / 2 ^ (e - (p : Int) + 1) - (n : ℚ)| < 1 / 2) :
    roundToPrecision p x = (n : ℚ) * 2 ^ (e - (p : Int) + 1) := by
  have hx : 0 < x := lt_of_lt_of_le (zpow_pos (by norm_num) e) hlo
  unfold roundToPrecision
  rw [if_neg (ne_of_gt hx), abs_of_pos hx, log_two_eq x e hlo hhi, roundHalfEven_eq _ n hn]

theorem CPLIn_x87Eval : CPLIn x87Eval = 2458965396544291 / 18014398509481984 := by
  have h1 : roundToPrecision 53 2.73 = (6147413491360727 / 2251799813685248) :=
    (roundToPrecision_eq 53 _ 1 6147413491360727 (by norm_num) (by norm_num)
      (by rw [abs_lt]; norm_num)).trans (by norm_num)
  have h2 : roundToPrecision 53 1.0 = 1 :=
    (roundToPrecision_eq 53 _ 0 4503599627370496 (by norm_num) (by norm_num)
      (by rw [abs_lt]; norm_num)).trans (by norm_num)
  have h3 : roundToPrecision 53 20.0 = 20 :=
    (roundToPrecision_eq 53 _ 4 5629499534213120 (by norm_num) (by norm_num)
      (by rw [abs_lt]; norm_num)).trans (by norm_num)
  have h4 : roundToPrecision 64 ((6147413491360727 / 2251799813685248) * 1) =
      (6147413491360727 / 2251799813685248) :=
    (roundToPrecision_eq 64 _ 1 12589902830306768896 (by norm_num) (by norm_num)
      (by rw [abs_lt]; norm_num)).trans (by norm_num)
  have h5 : roundToPrecision 64 ((6147413491360727 / 2251799813685248) / 20) =
      (10071922264245415117 / 73786976294838206464) :=
    (roundToPrecision_eq 64 _ (-3) 10071922264245415117 (by norm_num) (by norm_num)
      (by rw [abs_lt]; norm_num)).trans (by norm_num)
  have h6 : roundToPrecision 53 (10071922264245415117 / 73786976294838206464) =
      (2458965396544291 / 18014398509481984) :=
    (roundToPrecision_eq 53 _ (-3) 4917930793088582 (by norm_num) (by norm_num)
      (by rw [abs_lt]; norm_num)).trans (by norm_num)
  simp only [CPLIn, x87Eval]
  rw [h1, h2, h3, h4, h5, h6]

theorem luminance1In_x87Eval_tie : luminance1In x87Eval 75 37 = 5284099837516893 / 70368744177664 := by
  have k1 : roundToPrecision 53 1.75 = (7 / 4) :=
    (roundToPrecision_eq 53 _ 0 7881299347898368 (by norm_num) (by norm_num)
      (by rw [abs_lt]; norm_num)).trans (by norm_num)
  have k2 : roundToPrecision 64 ((7 / 4) * 37) = (259 / 4) :=
    (roundToPrecision_eq 64 _ 6 9331458427911667712 (by norm_num) (by norm_num)
      (by rw [abs_lt]; norm_num)).trans (by norm_num)
  have k3 : roundToPrecision 64 (75 - (259 / 4)) = (41 / 4) :=
    (roundToPrecision_eq 64 _ 3 11817445422220181504 (by norm_num) (by norm_num)
      (by rw [abs_lt]; norm_num)).trans (by norm_num)
  have k4 : roundToPrecision 64 ((41 / 4) / (2458965396544291 / 18014398509481984)) =
      (10821836467234597637 / 144115188075855872) :=
    (roundToPrecision_eq 64 _ 6 10821836467234597637 (by norm_num) (by norm_num)
      (by rw [abs_lt]; norm_num)).trans (by norm_num)
  have k5 : roundToPrecision 53 (10821836467234597637 / 144115188075855872) =
      (5284099837516893 / 70368744177664) :=
    (roundToPrecision_eq 53 _ 6 5284099837516893 (by norm_num) (by norm_num)
      (by rw [abs_lt]; norm_num)).trans (by norm_num)
  unfold luminance1In
  rw [CPLIn_x87Eval]
  simp only [x87Eval, Int.cast_mul, Int.cast_one, Int.cast_ofNat, one_mul]
  rw [k1, k2, k3, k4, k5]

theorem luminance2In_x87Eval_tie : luminance2In x87Eval 75 37 = 2642049918758447 / 35184372088832 := by
  have j1 : roundToPrecision 53 0.63 = (5674535530486825 / 9007199254740992) :=
    (roundToPrecision_eq 53 _ (-1) 5674535530486825 (by norm_num) (by norm_num)
      (by rw [abs_lt]; norm_num)).trans (by norm_num)
  have j2 : roundToPrecision 64 ((5674535530486825 / 9007199254740992) * 75) =
      (425590164786511875 / 9007199254740992) :=
    (roundToPrecision_eq 64 _ 5 13618885273168380000 (by norm_num) (by norm_num)
      (by rw [abs_lt]; norm_num)).trans (by norm_num)
  have j3 : roundToPrecision 53 1.00 = 1 :=
    (roundToPrecision_eq 53 _ 0 4503599627370496 (by norm_num) (by norm_num)
      (by rw [abs_lt]; norm_num)).trans (by norm_num)
  have j4 : roundToPrecision 64 (1 * 37) = 37 :=
    (roundToPrecision_eq 64 _ 5 10664523917613334528 (by norm_num) (by norm_num)
      (by rw [abs_lt]; norm_num)).trans (by norm_num)
  have j5 : roundToPrecision 64 ((425590164786511875 / 9007199254740992) - 37) =
      (92323792361095171 / 9007199254740992) :=
    (roundToPrecision_eq 64 _ 3 11817445422220181888 (by norm_num) (by norm_num)
      (by rw [abs_lt]; norm_num)).trans (by norm_num)
  have j6 : roundToPrecision 64 ((92323792361095171 / 9007199254740992) / (2458965396544291 / 18014398509481984)) =
      (10821836467234597989 / 144115188075855872) :=
    (roundToPrecision_eq 64 _ 6 10821836467234597989 (by norm_num) (by norm_num)
      (by rw [abs_lt]; norm_num)).trans (by norm_num)
  have j7 : roundToPrecision 53 (10821836467234597989 / 144115188075855872) =
      (2642049918758447 / 35184372088832) :=
    (roundToPrecision_eq 53 _ 6 5284099837516894 (by norm_num) (by norm_num)
      (by rw [abs_lt]; norm_num)).trans (by norm_num)
  unfold luminance2In
  rw [CPLIn_x87Eval]
  simp only [x87Eval, Int.cast_ofNat]
  rw [j1, j2, j3, j4, j5, j6, j7]

theorem CPLIn_binary64Eval : CPLIn binary64Eval = 2458965396544291 / 18014398509481984 := by
  have h1 : roundToPrecision 53 2.73 = (6147413491360727 / 2251799813685248) :=
    (roundToPrecision_eq 53 _ 1 6147413491360727 (by norm_num) (by norm_num)
      (by rw [abs_lt]; norm_num)).trans (by norm_num)
  have h2 : roundToPrecision 53 1.0 = 1 :=
    (roundToPrecision_eq 53 _ 0 4503599627370496 (by norm_num) (by norm_num)
      (by rw [abs_lt]; norm_num)).trans (by norm_num)
  have h3 : roundToPrecision 53 20.0 = 20 :=
    (roundToPrecision_eq 53 _ 4 5629499534213120 (by norm_num) (by norm_num)
      (by rw [abs_lt]; norm_num)).trans (by norm_num)
  have h4 : roundToPrecision 53 ((6147413491360727 / 2251799813685248) * 1) =
      (6147413491360727 / 2251799813685248) :=
    (roundToPrecision_eq 53 _ 1 6147413491360727 (by norm_num) (by norm_num)
      (by rw [abs_lt]; norm_num)).trans (by norm_num)
  have h5 : roundToPrecision 53 ((6147413491360727 / 2251799813685248) / 20) =
      (2458965396544291 / 18014398509481984) :=
    (roundToPrecision_eq 53 _ (-3) 4917930793088582 (by norm_num) (by norm_num)
      (by rw [abs_lt]; norm_num)).trans (by norm_num)
  have h6 : roundToPrecision 53 (2458965396544291 / 18014398509481984) =
      (2458965396544291 / 18014398509481984) :=
    (roundToPrecision_eq 53 _ (-3) 4917930793088582 (by norm_num) (by norm_num)
      (by rw [abs_lt]; norm_num)).trans (by norm_num)
  simp only [CPLIn, binary64Eval]
  rw [h1, h2, h3, h4, h5, h6]

theorem luminance1In_binary64Eval_tie : luminance1In binary64Eval 75 37 = 5284099837516893 / 70368744177664 := by
  have k1 : roundToPrecision 53 1.75 = (7 / 4) :=
    (roundToPrecision_eq 53 _ 0 7881299347898368 (by norm_num) (by norm_num)
      (by rw [abs_lt]; norm_num)).trans (by norm_num)
  have k2 : roundToPrecision 53 ((7 / 4) * 37) = (259 / 4) :=
    (roundToPrecision_eq 53 _ 6 4556376185503744 (by norm_num) (by norm_num)
      (by rw [abs_lt]; norm_num)).trans (by norm_num)
  have k3 : roundToPrecision 53 (75 - (259 / 4)) = (41 / 4) :=
    (roundToPrecision_eq 53 _ 3 5770237022568448 (by norm_num) (by norm_num)
      (by rw [abs_lt]; norm_num)).trans (by norm_num)
  have k4 : roundToPrecision 53 ((41 / 4) / (2458965396544291 / 18014398509481984)) =
      (5284099837516893 / 70368744177664) :=
    (roundToPrecision_eq 53 _ 6 5284099837516893 (by norm_num) (by norm_num)
      (by rw [abs_lt]; norm_num)).trans (by norm_num)
  have k5 : roundToPrecision 53 (5284099837516893 / 70368744177664) =
      (5284099837516893 / 70368744177664) :=
    (roundToPrecision_eq 53 _ 6 5284099837516893 (by norm_num) (by norm_num)
      (by rw [abs_lt]; norm_num)).trans (by norm_num)
  unfold luminance1In
  rw [CPLIn_binary64Eval]
  simp only [binary64Eval, Int.cast_mul, Int.cast_one, Int.cast_ofNat, one_mul]
  rw [k1, k2, k3, k4, k5]

theorem luminance2In_binary64Eval_tie : luminance2In binary64Eval 75 37 = 5284099837516893 / 70368744177664 := by
  have j1 : roundToPrecision 53 0.63 = (5674535530486825 / 9007199254740992) :=
    (roundToPrecision_eq 53 _ (-1) 5674535530486825 (by norm_num) (by norm_num)
      (by rw [abs_lt]; norm_num)).trans (by norm_num)
  have j2 : roundToPrecision 53 ((5674535530486825 / 9007199254740992) * 75) = (189 / 4) :=
    (roundToPrecision_eq 53 _ 5 6649846324789248 (by norm_num) (by norm_num)
      (by rw [abs_lt]; norm_num)).trans (by norm_num)
  have j3 : roundToPrecision 53 1.00 = 1 :=
    (roundToPrecision_eq 53 _ 0 4503599627370496 (by norm_num) (by norm_num)
      (by rw [abs_lt]; norm_num)).trans (by norm_num)
  have j4 : roundToPrecision 53 (1 * 37) = 37 :=
    (roundToPrecision_eq 53 _ 5 5207287069147136 (by norm_num) (by norm_num)
      (by rw [abs_lt]; norm_num)).trans (by norm_num)
  have j5 : roundToPrecision 53 ((189 / 4) - 37) = (41 / 4) :=
    (roundToPrecision_eq 53 _ 3 5770237022568448 (by norm_num) (by norm_num)
      (by rw [abs_lt]; norm_num)).trans (by norm_num)
  have j6 : roundToPrecision 53 ((41 / 4) / (2458965396544291 / 18014398509481984)) =
      (5284099837516893 / 70368744177664) :=
    (roundToPrecision_eq 53 _ 6 5284099837516893 (by norm_num) (by norm_num)
      (by rw [abs_lt]; norm_num)).trans (by norm_num)
  have j7 : roundToPrecision 53 (5284099837516893 / 70368744177664) =
      (5284099837516893 / 70368744177664) :=
    (roundToPrecision_eq 53 _ 6 5284099837516893 (by norm_num) (by norm_num)
      (by rw [abs_lt]; norm_num)).trans (by norm_num)
  unfold luminance2In
  rw [CPLIn_binary64Eval]
  simp only [binary64Eval, Int.cast_ofNat]
  rw [j1, j2, j3, j4, j5, j6, j7]

theorem luminanceIn_of_tie (ev : FloatEval) (c0 c1 : Int)
    (h : luminance1In ev c0 c1 = luminance2In ev c0 c1) :
    luminanceIn ev c0 c1 = ev.store (ev.literal 0.0) := by
  unfold luminanceIn
  rw [h]
  simp

theorem luminanceIn_exactEval (c0 c1 : Int) :
    luminance1In exactEval c0 c1 = luminance1 c0 c1 ∧
      luminance2In exactEval c0 c1 = luminance2 c0 c1 ∧
      luminanceIn exactEval c0 c1 = luminance c0 c1 := by
  have h1 : luminance1In exactEval c0 c1 = luminance1 c0 c1 := rfl
  have h2 : luminance2In exactEval c0 c1 = luminance2 c0 c1 := rfl
  refine ⟨h1, h2, ?_⟩
  unfold luminanceIn luminance
  rw [h1, h2]
  rfl

/-! ## The conversion -/

theorem CPL_eq : CPL = 273 / 2000 := by
  norm_num [CPL]

theorem luminance1_eq (c0 c1 : Int) :
    luminance1 c0 c1 = ((4 * c0 - 7 * c1 : Int) : ℚ) * (500 / 273) := by
  rw [luminance1, CPL_eq]
  push_cast
  ring

theorem luminance2_eq (c0 c1 : Int) :
    luminance2 c0 c1 = ((63 * c0 - 100 * c1 : Int) : ℚ) * (20 / 273) := by
  rw [luminance2, CPL_eq]
  push_cast
  ring

theorem luminance_diff_eq (c0 c1 : Int) :
    luminance1 c0 c1 - luminance2 c0 c1 = ((37 * c0 - 75 * c1 : Int) : ℚ) * (20 / 273) := by
  rw [luminance1_eq, luminance2_eq]
  push_cast
  ring

theorem luminance1_pos_iff (c0 c1 : Int) : luminance1 c0 c1 > 0 ↔ 7 * c1 < 4 * c0 := by
  rw [luminance1_eq, gt_iff_lt, mul_pos_iff_of_pos_right (by norm_num), Int.cast_pos]
  omega

theorem luminance2_pos_iff (c0 c1 : Int) : luminance2 c0 c1 > 0 ↔ 100 * c1 < 63 * c0 := by
  rw [luminance2_eq, gt_iff_lt, mul_pos_iff_of_pos_right (by norm_num), Int.cast_pos]
  omega

theorem luminance1_gt_iff (c0 c1 : Int) :
    luminance1 c0 c1 > luminance2 c0 c1 ↔ 75 * c1 < 37 * c0 := by
  rw [gt_iff_lt, ← sub_pos, luminance_diff_eq, mul_pos_iff_of_pos_right (by norm_num),
    Int.cast_pos]
  omega

theorem luminance2_gt_iff (c0 c1 : Int) :
    luminance2 c0 c1 > luminance1 c0 c1 ↔ 37 * c0 < 75 * c1 := by
  have hd : luminance2 c0 c1 - luminance1 c0 c1 =
      ((75 * c1 - 37 * c0 : Int) : ℚ) * (20 / 273) := by
    rw [luminance1_eq, luminance2_eq]
    push_cast
    ring
  rw [gt_iff_lt, ← sub_pos, hd, mul_pos_iff_of_pos_right (by norm_num), Int.cast_pos]
  omega

theorem luminance1_eq_zero_iff (c0 c1 : Int) : luminance1 c0 c1 = 0 ↔ 4 * c0 = 7 * c1 := by
  rw [luminance1_eq, mul_eq_zero, Int.cast_eq_zero]
  constructor
  · rintro (h | h)
    · omega
    · norm_num at h
  · intro h
    left
    omega

theorem luminance2_eq_zero_iff (c0 c1 : Int) : luminance2 c0 c1 = 0 ↔ 63 * c0 = 100 * c1 := by
  rw [luminance2_eq, mul_eq_zero, Int.cast_eq_zero]
  constructor
  · rintro (h | h)
    · omega
    · norm_num at h
  · intro h
    left
    omega

theorem luminance1_eq_formulaA (c0 c1 : Int) : luminance1 c0 c1 = formulaA c0 c1 := by
  rw [luminance1, formulaA, CPL]
  push_cast
  norm_num

theorem luminance2_eq_formulaB (c0 c1 : Int) : luminance2 c0 c1 = formulaB c0 c1 := by
  rw [luminance2, formulaB, CPL]
  norm_num

theorem luminance_of_tie (c0 c1 : Int) (h : luminance1 c0 c1 = luminance2 c0 c1) :
    luminance c0 c1 = 0 := by
  unfold luminance
  rw [h]
  norm_num

/-- C1: for every pair of counts the luminance computed by the program is the
one the selection policy of the specification gives (formula A if A > 0 and
A > B, otherwise formula B if B > 0 and B > A, otherwise 0, with
CPL = 2.73 / 20); for c0 = 10 and c1 = 20 both formulas are negative and the
luminance is 0. -/
theorem luminance_follows_selection_policy :
    (∀ c0 c1 : Int, luminance c0 c1 = specLuminance c0 c1) ∧
      formulaA 10 20 < 0 ∧ formulaB 10 20 < 0 ∧ luminance 10 20 = 0 := by
  refine ⟨?_, ?_, ?_, ?_⟩
  · intro c0 c1
    unfold luminance specLuminance
    rw [luminance1_eq_formulaA, luminance2_eq_formulaB]
    norm_num
  · norm_num [formulaA]
  · norm_num [formulaB]
  · norm_num [luminance, luminance1, luminance2, CPL]

/-- C3 as stated fails under x87 evaluation: at c0 = 75, c1 = 37 formula A
equals formula B (both 10.25 / CPL, positive), but the literal 0.63 is not a
binary fraction and its excess survives the extended-precision product, so
the second candidate is computed one unit in the last place above the first
and the luminance reported is that candidate, shown as 75.09, not 0. -/
theorem positive_tie_breaks_under_x87 :
    (formulaA 75 37 = formulaB 75 37 ∧ 0 < formulaA 75 37) ∧
      luminance1In x87Eval 75 37 = 5284099837516893 / 2 ^ 46 ∧
      luminance2In x87Eval 75 37 = 5284099837516894 / 2 ^ 46 ∧
      luminanceIn x87Eval 75 37 = luminance2In x87Eval 75 37 ∧
      luminanceIn x87Eval 75 37 ≠ 0 ∧
      twoDecimals (luminanceIn x87Eval 75 37) = 7509 := by
  have hl : luminanceIn x87Eval 75 37 = 2642049918758447 / 35184372088832 := by
    unfold luminanceIn
    rw [luminance1In_x87Eval_tie, luminance2In_x87Eval_tie]
    norm_num
  refine ⟨⟨?_, ?_⟩, ?_, ?_, ?_, ?_, ?_⟩
  · norm_num [formulaA, formulaB]
  · norm_num [formulaA]
  · rw [luminance1In_x87Eval_tie]
    norm_num
  · rw [luminance2In_x87Eval_tie]
    norm_num
  · rw [hl, luminance2In_x87Eval_tie]
  · rw [hl]
    norm_num
  · rw [hl, twoDecimals, Int.floor_eq_iff]
    norm_num

/-- C3 amended: under every evaluation mode, whenever the two candidate values
as computed are equal the luminance is the initial 0.0, whatever their common
sign. With exact arithmetic the candidates are equal and the luminance is 0 at
c0 = 0, c1 = 0 (both zero), at c0 = -75, c1 = -37 (both negative) and at
c0 = 75, c1 = 37 (both 10.25 / CPL, positive); in binary64 throughout the
candidates at c0 = 75, c1 = 37 are equal and positive and the luminance is 0;
at c0 = 0, c1 = 0 both candidates and the luminance are 0 in binary64 and
under x87 evaluation as well. -/
theorem tie_gives_zero :
    (∀ (ev : FloatEval) (c0 c1 : Int),
        luminance1In ev c0 c1 = luminance2In ev c0 c1 →
          luminanceIn ev c0 c1 = ev.store (ev.literal 0.0)) ∧
      (exactEval.store (exactEval.literal 0.0) = 0 ∧
        binary64Eval.store (binary64Eval.literal 0.0) = 0 ∧
        x87Eval.store (x87Eval.literal 0.0) = 0) ∧
      (∀ c0 c1 : Int,
        luminance1In exactEval c0 c1 = luminance1 c0 c1 ∧
          luminance2In exactEval c0 c1 = luminance2 c0 c1 ∧
          luminanceIn exactEval c0 c1 = luminance c0 c1) ∧
      (∀ c0 c1 : Int, luminance1 c0 c1 = luminance2 c0 c1 → luminance c0 c1 = 0) ∧
      (luminance1 0 0 = 0 ∧ luminance2 0 0 = 0 ∧ luminance 0 0 = 0) ∧
      (luminance1 (-75) (-37) = luminance2 (-75) (-37) ∧ luminance1 (-75) (-37) < 0 ∧
        luminance (-75) (-37) = 0) ∧
      (luminance1 75 37 = 10.25 / CPL ∧ luminance2 75 37 = 10.25 / CPL ∧
        0 < luminance1 75 37 ∧ luminance 75 37 = 0) ∧
      (luminance1In binary64Eval 75 37 = luminance2In binary64Eval 75 37 ∧
        0 < luminance1In binary64Eval 75 37 ∧ luminanceIn binary64Eval 75 37 = 0) ∧
      (luminance1In binary64Eval 0 0 = 0 ∧ luminance2In binary64Eval 0 0 = 0 ∧
        luminanceIn binary64Eval 0 0 = 0) ∧
      (luminance1In x87Eval 0 0 = 0 ∧ luminance2In x87Eval 0 0 = 0 ∧
        luminanceIn x87Eval 0 0 = 0) := by
  have hz53 : roundToPrecision 53 0.0 = 0 := by
    norm_num [roundToPrecision]
  have hzz : ∀ p : Nat, roundToPrecision p 0 = 0 := fun p => by
    simp [roundToPrecision]
  have htie : luminance1In binary64Eval 75 37 = luminance2In binary64Eval 75 37 :=
    luminance1In_binary64Eval_tie.trans luminance2In_binary64Eval_tie.symm
  have hb1 : luminance1In binary64Eval 0 0 = 0 := by
    simp [luminance1In, binary64Eval, hzz]
  have hb2 : luminance2In binary64Eval 0 0 = 0 := by
    simp [luminance2In, binary64Eval, hzz]
  have hx1 : luminance1In x87Eval 0 0 = 0 := by
    simp [luminance1In, x87Eval, hzz]
  have hx2 : luminance2In x87Eval 0 0 = 0 := by
    simp [luminance2In, x87Eval, hzz]
  have hb0 : binary64Eval.store (binary64Eval.literal 0.0) = 0 := by
    show roundToPrecision 53 (roundToPrecision 53 0.0) = 0
    rw [hz53, hzz]
  have hx0 : x87Eval.store (x87Eval.literal 0.0) = 0 := by
    show roundToPrecision 53 (roundToPrecision 53 0.0) = 0
    rw [hz53, hzz]
  refine ⟨luminanceIn_of_tie, ⟨?_, hb0, hx0⟩, luminanceIn_exactEval, luminance_of_tie,
    ⟨?_, ?_, ?_⟩, ⟨?_, ?_, ?_⟩, ⟨?_, ?_, ?_, ?_⟩, ⟨htie, ?_, ?_⟩, ⟨hb1, hb2, ?_⟩,
    ⟨hx1, hx2, ?_⟩⟩
  · norm_num [exactEval]
  · norm_num [luminance1, CPL]
  · norm_num [luminance2, CPL]
  · norm_num [luminance, luminance1, luminance2, CPL]
  · norm_num [luminance1, luminance2, CPL]
  · norm_num [luminance1, CPL]
  · norm_num [luminance, luminance1, luminance2, CPL]
  · norm_num [luminance1, CPL]
  · norm_num [luminance2, CPL]
  · norm_num [luminance1, CPL]
  · norm_num [luminance, luminance1, luminance2, CPL]
  · rw [luminance1In_binary64Eval_tie]
    norm_num
  · rw [luminanceIn_of_tie binary64Eval 75 37 htie, hb0]
  · rw [luminanceIn_of_tie binary64Eval 0 0 (hb1.trans hb2.symm), hb0]
  · rw [luminanceIn_of_tie x87Eval 0 0 (hx1.trans hx2.symm), hx0]

theorem tie_gives_zero_witness :
    luminance1In binary64Eval 75 37 = luminance2In binary64Eval 75 37 ∧
      luminanceIn binary64Eval 75 37 = binary64Eval.store (binary64Eval.literal 0.0) :=
  ⟨luminance1In_binary64Eval_tie.trans luminance2In_binary64Eval_tie.symm,
    tie_gives_zero.1 binary64Eval 75 37
      (luminance1In_binary64Eval_tie.trans luminance2In_binary64Eval_tie.symm)⟩

/-- C9: CPL is 2.73 / 20 = 0.1365 = 273 / 2000; for c0 = 100 and c1 = 0 the
first candidate is 100 / 0.1365 = 200000 / 273 and the second is
63 / 0.1365 = 6000 / 13, the first is positive and the larger, the luminance
reported is the first, shown with two decimals as 732.60 (the second would be
461.54). -/
theorem example_bright_channel0 :
    (CPL = 2.73 / 20 ∧ CPL = 0.1365 ∧ CPL = 273 / 2000) ∧
      (luminance1 100 0 = 100 / 0.1365 ∧ luminance1 100 0 = 200000 / 273) ∧
      (luminance2 100 0 = 63 / 0.1365 ∧ luminance2 100 0 = 6000 / 13) ∧
      (luminance1 100 0 > luminance2 100 0 ∧ luminance1 100 0 > 0) ∧
      luminance 100 0 = luminance1 100 0 ∧
      twoDecimals (luminance 100 0) = 73260 ∧ twoDecimals (luminance2 100 0) = 46154 ∧
      outputs (main envHealthy).trace =
        [Output.luminance (luminance1 100 0), Output.proximity 263] := by
  have h1 : luminance1 100 0 = 200000 / 273 := by norm_num [luminance1, CPL]
  have h2 : luminance2 100 0 = 6000 / 13 := by norm_num [luminance2, CPL]
  have hl : luminance 100 0 = luminance1 100 0 := by
    unfold luminance
    rw [h1, h2]
    norm_num
  refine ⟨⟨?_, ?_, ?_⟩, ⟨?_, h1⟩, ⟨?_, h2⟩, ⟨?_, ?_⟩, hl, ?_, ?_, ?_⟩
  · norm_num [CPL]
  · norm_num [CPL]
  · norm_num [CPL]
  · rw [h1]; norm_num
  · rw [h2]; norm_num
  · rw [h1, h2]; norm_num
  · rw [h1]; norm_num
  · rw [hl, h1, twoDecimals, Int.floor_eq_iff]
    norm_num
  · rw [h2, twoDecimals, Int.floor_eq_iff]
    norm_num
  · rw [main_of_full_read envHealthy (by decide) rfl]
    have hc0 : c0Data envHealthy.charSigned (received envHealthy) = 100 := by decide
    have hc1 : c1Data envHealthy.charSigned (received envHealthy) = 0 := by decide
    have hp : proximity envHealthy.charSigned (received envHealthy) = 263 := by
      simp [proximity, received, sysRead, envHealthy, charValue, List.range, List.range.loop]
    rw [hc0, hc1, hp, hl]
    simp [samplingTrace, outputs]

/-- C10 as stated fails: the luminance can equal a candidate outside that
candidate's region. At c0 = 100, c1 = 63 the luminance and formula B are both
0 although 100 c1 < 63 c0 does not hold; at c0 = 0, c1 = 0 the luminance and
formula A are both 0 although 75 c1 < 37 c0 does not hold. -/
theorem luminance_meets_candidate_outside_region :
    (luminance 100 63 = luminance2 100 63 ∧
        ¬ (37 * (100 : Int) < 75 * 63 ∧ 100 * (63 : Int) < 63 * 100)) ∧
      (luminance 0 0 = luminance1 0 0 ∧ ¬ (75 * (0 : Int) < 37 * 0)) := by
  refine ⟨⟨?_, by decide⟩, ⟨?_, by decide⟩⟩ <;>
    norm_num [luminance, luminance1, luminance2, CPL]

/-- C10 amended: for counts between 0 and 65535, with exact arithmetic, the
branch of line 73 is taken exactly when 75 c1 < 37 c0, and the luminance is
then the first candidate, which is positive; the branch of line 78 is taken
exactly when 37 c0 < 75 c1 and 100 c1 < 63 c0, and the luminance is then the
second candidate; in every other case, that is when 37 c0 = 75 c1 or
100 c1 >= 63 c0, the luminance is 0. The luminance is never negative and is
positive exactly in the first two regions. As values, the luminance equals
the first candidate exactly when 75 c1 < 37 c0 or c0 = c1 = 0, and equals the
second candidate exactly when 37 c0 < 75 c1 and 100 c1 < 63 c0, or
100 c1 = 63 c0. -/
theorem luminance_regions (c0 c1 : Int)
    (h0 : 0 ≤ c0) (_h0u : c0 ≤ 65535) (h1 : 0 ≤ c1) (_h1u : c1 ≤ 65535) :
    ((luminance1 c0 c1 > 0 ∧ luminance1 c0 c1 > luminance2 c0 c1) ↔ 75 * c1 < 37 * c0) ∧
      ((¬ (luminance1 c0 c1 > 0 ∧ luminance1 c0 c1 > luminance2 c0 c1) ∧
          (luminance2 c0 c1 > 0 ∧ luminance2 c0 c1 > luminance1 c0 c1)) ↔
        (37 * c0 < 75 * c1 ∧ 100 * c1 < 63 * c0)) ∧
      (75 * c1 < 37 * c0 → luminance c0 c1 = luminance1 c0 c1 ∧ 0 < luminance1 c0 c1) ∧
      (37 * c0 < 75 * c1 ∧ 100 * c1 < 63 * c0 →
        luminance c0 c1 = luminance2 c0 c1 ∧ 0 < luminance2 c0 c1) ∧
      (¬ 75 * c1 < 37 * c0 ∧ ¬ (37 * c0 < 75 * c1 ∧ 100 * c1 < 63 * c0) →
        luminance c0 c1 = 0) ∧
      ((¬ 75 * c1 < 37 * c0 ∧ ¬ (37 * c0 < 75 * c1 ∧ 100 * c1 < 63 * c0)) ↔
        (37 * c0 = 75 * c1 ∨ 100 * c1 ≥ 63 * c0)) ∧
      0 ≤ luminance c0 c1 ∧
      (0 < luminance c0 c1 ↔
        (75 * c1 < 37 * c0 ∨ (37 * c0 < 75 * c1 ∧ 100 * c1 < 63 * c0))) ∧
      (luminance c0 c1 = luminance1 c0 c1 ↔ (75 * c1 < 37 * c0 ∨ (c0 = 0 ∧ c1 = 0))) ∧
      (luminance c0 c1 = luminance2 c0 c1 ↔
        ((37 * c0 < 75 * c1 ∧ 100 * c1 < 63 * c0) ∨ 100 * c1 = 63 * c0)) := by
  have hA : (luminance1 c0 c1 > 0 ∧ luminance1 c0 c1 > luminance2 c0 c1) ↔
      75 * c1 < 37 * c0 := by
    rw [luminance1_pos_iff, luminance1_gt_iff]
    omega
  have hB : (luminance2 c0 c1 > 0 ∧ luminance2 c0 c1 > luminance1 c0 c1) ↔
      (37 * c0 < 75 * c1 ∧ 100 * c1 < 63 * c0) := by
    rw [luminance2_pos_iff, luminance2_gt_iff]
    omega
  have hR1 : 75 * c1 < 37 * c0 → luminance c0 c1 = luminance1 c0 c1 ∧ 0 < luminance1 c0 c1 := by
    intro h
    have hc := hA.mpr h
    exact ⟨by unfold luminance; rw [if_pos hc], hc.1⟩
  have hR2 : 37 * c0 < 75 * c1 ∧ 100 * c1 < 63 * c0 →
      luminance c0 c1 = luminance2 c0 c1 ∧ 0 < luminance2 c0 c1 := by
    intro h
    have hc := hB.mpr h
    have hn : ¬ (luminance1 c0 c1 > 0 ∧ luminance1 c0 c1 > luminance2 c0 c1) := by
      rw [hA]
      omega
    exact ⟨by unfold luminance; rw [if_neg hn, if_pos hc], hc.1⟩
  have hR3 : ¬ 75 * c1 < 37 * c0 ∧ ¬ (37 * c0 < 75 * c1 ∧ 100 * c1 < 63 * c0) →
      luminance c0 c1 = 0 := by
    intro h
    have hn1 : ¬ (luminance1 c0 c1 > 0 ∧ luminance1 c0 c1 > luminance2 c0 c1) := by
      rw [hA]
      exact h.1
    have hn2 : ¬ (luminance2 c0 c1 > 0 ∧ luminance2 c0 c1 > luminance1 c0 c1) := by
      rw [hB]
      exact h.2
    unfold luminance
    rw [if_neg hn1, if_neg hn2]
    norm_num
  refine ⟨hA, ?_, hR1, hR2, hR3, ?_, ?_, ?_, ?_, ?_⟩
  · rw [hA, hB]
    omega
  · omega
  · by_cases r1 : 75 * c1 < 37 * c0
    · rw [(hR1 r1).1]
      exact le_of_lt (hR1 r1).2
    · by_cases r2 : 37 * c0 < 75 * c1 ∧ 100 * c1 < 63 * c0
      · rw [(hR2 r2).1]
        exact le_of_lt (hR2 r2).2
      · rw [hR3 ⟨r1, r2⟩]
  · constructor
    · intro hpos
      by_contra hnot
      have hz := hR3 ⟨fun h => hnot (Or.inl h), fun h => hnot (Or.inr h)⟩
      rw [hz] at hpos
      exact lt_irrefl _ hpos
    · rintro (r1 | r2)
      · rw [(hR1 r1).1]
        exact (hR1 r1).2
      · rw [(hR2 r2).1]
        exact (hR2 r2).2
  · constructor
    · intro hl
      by_cases r1 : 75 * c1 < 37 * c0
      · exact Or.inl r1
      · right
        by_cases r2 : 37 * c0 < 75 * c1 ∧ 100 * c1 < 63 * c0
        · have hgt := (hB.mpr r2).2
          rw [← hl, (hR2 r2).1] at hgt
          exact absurd hgt (lt_irrefl _)
        · have hz : luminance1 c0 c1 = 0 := by
            rw [← hl]
            exact hR3 ⟨r1, r2⟩
          rw [luminance1_eq_zero_iff] at hz
          omega
    · rintro (r1 | ⟨rfl, rfl⟩)
      · exact (hR1 r1).1
      · norm_num [luminance, luminance1, luminance2, CPL]
  · constructor
    · intro hl
      by_cases r2 : 37 * c0 < 75 * c1 ∧ 100 * c1 < 63 * c0
      · exact Or.inl r2
      · right
        by_cases r1 : 75 * c1 < 37 * c0
        · have hgt := (hA.mpr r1).2
          rw [← hl, (hR1 r1).1] at hgt
          exact absurd hgt (lt_irrefl _)
        · have hz : luminance2 c0 c1 = 0 := by
            rw [← hl]
            exact hR3 ⟨r1, r2⟩
          rw [luminance2_eq_zero_iff] at hz
          omega
    · rintro (r2 | hline)
      · exact (hR2 r2).1
      · have hz : luminance2 c0 c1 = 0 := by
          rw [luminance2_eq_zero_iff]
          omega
        rw [hz]
        exact hR3 ⟨by omega, by omega⟩

theorem luminance_regions_witness :
    (75 * (0 : Int) < 37 * 100 ∧ luminance 100 0 = luminance1 100 0) ∧
      ((37 * (100 : Int) < 75 * 60 ∧ 100 * (60 : Int) < 63 * 100) ∧
        luminance 100 60 = luminance2 100 60) ∧
      luminance 75 37 = 0 :=
  ⟨⟨by decide,
      ((luminance_regions 100 0 (by decide) (by decide) (by decide) (by decide)).2.2.1
        (by decide)).1⟩,
    ⟨⟨by decide, by decide⟩,
      ((luminance_regions 100 60 (by decide) (by decide) (by decide) (by decide)).2.2.2.1
        ⟨by decide, by decide⟩).1⟩,
    (luminance_regions 75 37 (by decide) (by decide) (by decide) (by decide)).2.2.2.2.1
      ⟨by decide, by decide⟩⟩

end TMD2772
